import Mathlib

/-!
Verification of the node-taint-manager taint reconciliation engine
(src/main.go) against its natural-language specification.

The engine watches cluster nodes and daemonset pods through an informer
cache and, on a fixed tick, removes the gating taint
`node.vanstee.github.io/daemonset-not-ready` from every node on which all
tolerating daemonset pods are ready.  The development below shallowly
embeds the per-node decision logic, the JSON-patch builder, the bounded
retry of the patch call, the reconciliation pass over the cached node
list, and the startup / main-loop control flow.
-/

namespace NodeTaintManager

/-- The gating taint key (`TaintNodeDaemonSetNotReady` in main.go). -/
def TaintNodeDaemonSetNotReady : String := "node.vanstee.github.io/daemonset-not-ready"

/-- JSON patch op name constant (`JSONPatchOperationOpRemove` in main.go). -/
def JSONPatchOperationOpRemove : String := "remove"

/-- A node taint: `(key, value, effect)` triple (`apiv1.Taint`, projected). -/
structure Taint where
  key : String
  value : String
  effect : String
deriving DecidableEq

/-- An owner reference carrying the owning controller's kind.  `controller`
models the dereferenced `*bool Controller` field consulted by
`metav1.GetControllerOfNoCopy` (a nil pointer behaves as `false`). -/
structure OwnerReference where
  kind : String
  name : String
  controller : Bool
deriving DecidableEq

/-- A pod toleration `(key, operator, value)` (`apiv1.Toleration`, projected). -/
structure Toleration where
  key : String
  operator : String
  value : String
deriving DecidableEq

/-- A pod status condition `(type, status)` (`apiv1.PodCondition`, projected). -/
structure PodCondition where
  condType : String
  status : String
deriving DecidableEq

/-- A pod snapshot, projected to the fields the informer transform keeps
(name, owner references, node name, tolerations, status conditions). -/
structure Pod where
  name : String
  ownerReferences : List OwnerReference
  nodeName : String
  tolerations : List Toleration
  conditions : List PodCondition
deriving DecidableEq

/-- A node snapshot, projected to the fields the informer transform keeps
that the decision logic reads (name and taints; the creation timestamp is
used only for metrics and is not modelled). -/
structure Node where
  name : String
  taints : List Taint
deriving DecidableEq

/-- An object held in an informer cache.  The cache stores `interface{}`
values, so a listed item may fail the `*apiv1.Node` / `*apiv1.Pod` type
assertion; `other` models such a value. -/
inductive CacheObj where
  | node (n : Node)
  | pod (p : Pod)
  | other
deriving DecidableEq

/-- A JSON patch operation (`JSONPatchOperation` in main.go). -/
structure JSONPatchOperation where
  op : String
  path : String
deriving DecidableEq

/-- `metav1.GetControllerOfNoCopy`: the first owner reference whose
`Controller` flag is set. -/
def getControllerOf (p : Pod) : Option OwnerReference :=
  p.ownerReferences.find? (fun r => r.controller)

/-- `apiv1pod.IsPodReady`: the first status condition of type `Ready`
exists and reports status `True`. -/
def isPodReady (p : Pod) : Bool :=
  match p.conditions.find? (fun c => c.condType = "Ready") with
  | some c => c.status = "True"
  | none => false

/-- The toleration scan of main.go lines 196-202: the pod tolerates the
gating taint iff some toleration's `Key` equals the gating key (operator
and value are not examined). -/
def toleratesGate (p : Pod) : Bool :=
  p.tolerations.any (fun t => t.key = TaintNodeDaemonSetNotReady)

/-- A pod that gates taint removal: owned by a DaemonSet controller and
tolerating the gating key (main.go lines 192-205). -/
def qualifyingPod (p : Pod) : Bool :=
  (match getControllerOf p with
   | some c => c.kind = "DaemonSet"
   | none => false) && toleratesGate p

/-- One iteration of the pod loop (main.go lines 187-210): the cached
object forces `allPodsReady := false` exactly when it is a pod that
qualifies and is not ready.  Non-pod values and non-qualifying pods are
skipped by `continue`. -/
def podGatesRemoval (o : CacheObj) : Bool :=
  match o with
  | CacheObj.pod p => qualifyingPod p && !(isPodReady p)
  | _ => false

/-- The `allPodsReady` flag computed by main.go lines 186-210: true iff no
cached object on the node is a qualifying, unready daemonset pod (the Go
loop breaks at the first such pod; vacuously true on an empty list). -/
def allPodsReady (ipods : List CacheObj) : Bool :=
  ipods.all (fun o => !(podGatesRemoval o))

/-- The qualifying daemonset pods among the cached objects indexed under a
node: the set `P` the specification quantifies over. -/
def qualifyingPods (ipods : List CacheObj) : List Pod :=
  (ipods.filterMap (fun o => match o with
    | CacheObj.pod p => some p
    | _ => none)).filter qualifyingPod

/-- The taint scan of main.go lines 169-175: starting from index `i`,
the index of the first taint whose key equals the gating key (the Go loop
breaks at the first match; `-1`, modelled as `none`, if there is none). -/
def findGateIndexFrom : List Taint → Nat → Option Nat
  | [], _ => none
  | t :: ts, i =>
    if t.key = TaintNodeDaemonSetNotReady then some i
    else findGateIndexFrom ts (i + 1)

/-- `taintIndex` as computed for a node by main.go lines 169-178. -/
def taintIndexOf (node : Node) : Option Nat :=
  findGateIndexFrom node.taints 0

/-- Modelled from the spec (section 4.3, step 1): the positions of all
taints whose key equals the gating key, starting from index `i`.  Used
only to compare the code's single-index scan against the spec's
"locate all taint positions" wording. -/
def spec_gatingPositionsFrom : List Taint → Nat → List Nat
  | [], _ => []
  | t :: ts, i =>
    if t.key = TaintNodeDaemonSetNotReady then i :: spec_gatingPositionsFrom ts (i + 1)
    else spec_gatingPositionsFrom ts (i + 1)

/-- Modelled from the spec (section 4.3, step 1): all gating taint
positions of a taint list. -/
def spec_gatingPositions (taints : List Taint) : List Nat :=
  spec_gatingPositionsFrom taints 0

/-- The patch built by main.go lines 218-223: a single JSON remove
operation addressing `/spec/taints/<taintIndex>`. -/
def buildPatch (taintIndex : Nat) : List JSONPatchOperation :=
  [⟨JSONPatchOperationOpRemove, "/spec/taints/" ++ toString taintIndex⟩]

/-- `json.Marshal` of one `JSONPatchOperation` (field order `op`, `path`
as declared by the struct tags). -/
def marshalOp (o : JSONPatchOperation) : String :=
  "\x7b\"op\":\"" ++ o.op ++ "\",\"path\":\"" ++ o.path ++ "\"\x7d"

/-- `json.Marshal` of a patch operation list: a JSON array. -/
def marshalOps : List JSONPatchOperation → String
  | [] => ""
  | [o] => marshalOp o
  | o :: rest => marshalOp o ++ "," ++ marshalOps rest

/-- `json.Marshal` of the whole patch (main.go line 225). -/
def marshalPatch (ops : List JSONPatchOperation) : String :=
  "[" ++ marshalOps ops ++ "]"

/-- Outcome of one `client.CoreV1().Nodes().Patch` call. -/
inductive PatchResult where
  | ok
  | conflict
deriving DecidableEq

/-- `retry.Do(fn, retry.Attempts(n))` (main.go lines 230-236): call the
function, stop at the first success, otherwise retry until `n` attempts
have been spent.  `f` maps the attempt counter to the store's response;
`i` is the index of the next attempt. -/
def retryDo (f : Nat → PatchResult) : Nat → Nat → PatchResult
  | 0, _ => PatchResult.conflict
  | n + 1, i =>
    match f i with
    | PatchResult.ok => PatchResult.ok
    | PatchResult.conflict => retryDo f n (i + 1)

/-- The number of times `retry.Do` invokes the retried function. -/
def retryCalls (f : Nat → PatchResult) : Nat → Nat → Nat
  | 0, _ => 0
  | n + 1, i =>
    match f i with
    | PatchResult.ok => 1
    | PatchResult.conflict => 1 + retryCalls f n (i + 1)

/-- The sequence of patch bodies submitted across the retry attempts.
The retried closure (main.go lines 231-234) captures the already-marshalled
`bytes` value, so every attempt submits that same captured value. -/
def submittedPatches (bytes : String) (f : Nat → PatchResult) : Nat → Nat → List String
  | 0, _ => []
  | n + 1, i =>
    match f i with
    | PatchResult.ok => [bytes]
    | PatchResult.conflict => bytes :: submittedPatches bytes f n (i + 1)

/-- The collaborators a reconciliation pass consults: the pod-by-node
index (`ByIndex` may return an error, modelled as `none`), `json.Marshal`
(whose error branch the code handles), and the authoritative store's
response to the patch call for a node name, patch body and attempt
counter. -/
structure Env where
  podsByNode : String → Option (List CacheObj)
  marshal : List JSONPatchOperation → Option String
  patchOutcome : String → String → Nat → PatchResult

/-- How processing of one cached object ends (each failure constructor
corresponds to a `continue` in main.go's node loop). -/
inductive NodeOutcome where
  | notANode
  | noGatingTaint
  | indexLookupFailed
  | notAllReady
  | marshalFailed
  | patchFailed
  | untainted (patch : List JSONPatchOperation)
deriving DecidableEq

/-- The body of the per-node loop (main.go lines 163-245): type-assert the
cached object, locate the first gating taint, look up the node's pods,
check readiness of all qualifying daemonset pods, build and marshal the
single-operation patch, and submit it with at most 3 attempts. -/
def processNode (env : Env) (obj : CacheObj) : NodeOutcome :=
  match obj with
  | CacheObj.node node =>
    match taintIndexOf node with
    | none => NodeOutcome.noGatingTaint
    | some idx =>
      match env.podsByNode node.name with
      | none => NodeOutcome.indexLookupFailed
      | some ipods =>
        if allPodsReady ipods then
          match env.marshal (buildPatch idx) with
          | none => NodeOutcome.marshalFailed
          | some bytes =>
            match retryDo (env.patchOutcome node.name bytes) 3 0 with
            | PatchResult.ok => NodeOutcome.untainted (buildPatch idx)
            | PatchResult.conflict => NodeOutcome.patchFailed
        else NodeOutcome.notAllReady
  | _ => NodeOutcome.notANode

/-- The remove operations a node's processing actually sent and applied
(empty unless the patch succeeded). -/
def emittedOps : NodeOutcome → List JSONPatchOperation
  | NodeOutcome.untainted patch => patch
  | _ => []

/-- Whether processing of the object reached the mutation call at all
(`untainted` and `patchFailed` are the only outcomes past line 230). -/
def issuesMutation : NodeOutcome → Bool
  | NodeOutcome.untainted _ => true
  | NodeOutcome.patchFailed => true
  | _ => false

/-- One reconciliation pass (main.go lines 161-245): process every cached
object in order; every failure is a `continue`, so the loop always
advances to the next object. -/
def reconcilePass (env : Env) : List CacheObj → List NodeOutcome
  | [] => []
  | o :: os => processNode env o :: reconcilePass env os

/-- An event the main loop's `select` can observe: a ticker tick or the
interrupt-driven context cancellation (`ctx.Done()`). -/
inductive LoopEvent where
  | tick
  | cancel
deriving DecidableEq

/-- State of the main `for`/`select` loop: whether control is still inside
the `for` statement, and the outcomes of the reconciliation passes run so
far. -/
structure LoopState where
  active : Bool
  passOutcomes : List (List NodeOutcome)
deriving DecidableEq

/-- One iteration of the `for`/`select` loop (main.go lines 158-249).  On a
tick the pass body runs.  On `ctx.Done()` the unlabelled `break` statement
terminates only the enclosing `select`, not the `for` loop, so control
falls back to the top of the `for` and the loop stays active. -/
def mainLoopStep (env : Env) (nodes : List CacheObj) (s : LoopState) (e : LoopEvent) : LoopState :=
  match e with
  | LoopEvent.tick => ⟨s.active, s.passOutcomes ++ [reconcilePass env nodes]⟩
  | LoopEvent.cancel => s

/-- Run the main loop over a finite prefix of observed events, starting
inside the `for` loop with no passes yet run. -/
def mainLoopRun (env : Env) (nodes : List CacheObj) (events : List LoopEvent) : LoopState :=
  events.foldl (mainLoopStep env nodes) ⟨true, []⟩

/-- The cache-sync check of main.go lines 135-140: iterate the
`WaitForCacheSync` result map and `log.Fatalf` (process exit) at the first
type that failed to sync. -/
def checkCacheSync (synced : List (String × Bool)) : Option String :=
  match synced.find? (fun p => !p.2) with
  | some p => some p.1
  | none => none

/-- Startup followed by the main loop (main.go lines 133-249): if any
informer type failed to sync the process exits fatally (`none`) and the
reconciliation loop is never entered; otherwise the loop runs over the
observed events. -/
def runMain (env : Env) (nodes : List CacheObj) (synced : List (String × Bool))
    (events : List LoopEvent) : Option LoopState :=
  match checkCacheSync synced with
  | some _ => none
  | none => some (mainLoopRun env nodes events)

/-! ### Concrete instances used by counterexamples and witnesses -/

/-- A gating taint with a given value. -/
def gateTaint (v : String) : Taint :=
  ⟨TaintNodeDaemonSetNotReady, v, "NoSchedule"⟩

/-- A daemonset-owned pod on node `n`, tolerating the gating key, with the
given readiness. -/
def dsPod (nm : String) (n : String) (ready : Bool) : Pod :=
  ⟨nm, [⟨"DaemonSet", "ds-" ++ nm, true⟩], n,
   [⟨TaintNodeDaemonSetNotReady, "Exists", ""⟩],
   [⟨"Ready", if ready then "True" else "False"⟩]⟩

/-- A daemonset-owned pod whose only toleration is the blanket
`operator: Exists` toleration with an empty key (the README's
"tolerate all taints" form), with the given readiness. -/
def blanketPod (nm : String) (n : String) (ready : Bool) : Pod :=
  ⟨nm, [⟨"DaemonSet", "ds-" ++ nm, true⟩], n,
   [⟨"", "Exists", ""⟩],
   [⟨"Ready", if ready then "True" else "False"⟩]⟩

/-- Node `n1`: a single gating taint and no pods observed yet. -/
def node1 : Node := ⟨"n1", [gateTaint ""]⟩

/-- Node `n3` of Scenario C: two gating taint instances distinguished by
value, identifying two daemonsets. -/
def node3 : Node := ⟨"n3", [gateTaint "ds-a", gateTaint "ds-b"]⟩

/-- An environment whose pod index is empty for every node and whose store
accepts every patch. -/
def envEmptyPods : Env :=
  ⟨fun _ => some [], fun ops => some (marshalPatch ops), fun _ _ _ => PatchResult.ok⟩

/-- Scenario C environment: pod `a` (daemonset `ds-a`) ready, pod `b`
(daemonset `ds-b`) not ready, both tolerating the gating key. -/
def envScenarioC : Env :=
  ⟨fun _ => some [CacheObj.pod (dsPod "a" "n3" true), CacheObj.pod (dsPod "b" "n3" false)],
   fun ops => some (marshalPatch ops), fun _ _ _ => PatchResult.ok⟩

/-- Scenario C environment after both daemonsets' pods become ready. -/
def envScenarioCReady : Env :=
  ⟨fun _ => some [CacheObj.pod (dsPod "a" "n3" true), CacheObj.pod (dsPod "b" "n3" true)],
   fun ops => some (marshalPatch ops), fun _ _ _ => PatchResult.ok⟩

/-- An environment whose only pod is an unready daemonset pod carrying
only the blanket toleration. -/
def envBlanketUnready : Env :=
  ⟨fun _ => some [CacheObj.pod (blanketPod "a" "n1" false)],
   fun ops => some (marshalPatch ops), fun _ _ _ => PatchResult.ok⟩

/-- An environment whose store rejects every patch with a conflict. -/
def envAlwaysConflict : Env :=
  ⟨fun _ => some [], fun ops => some (marshalPatch ops), fun _ _ _ => PatchResult.conflict⟩

/-- A store response that reports a conflict on every attempt. -/
def alwaysConflict : Nat → PatchResult := fun _ => PatchResult.conflict

/-! ### Helper lemmas -/

/-- The `allPodsReady` flag equals readiness of all qualifying daemonset
pods: non-pod cache values and non-qualifying pods never gate removal. -/
lemma allPodsReady_eq_qualifying (ipods : List CacheObj) :
    allPodsReady ipods = (qualifyingPods ipods).all isPodReady := by
  induction ipods with
  | nil => rfl
  | cons o os ih =>
    cases o with
    | node n =>
      simpa [allPodsReady, qualifyingPods, podGatesRemoval, List.all_cons,
        List.filterMap_cons] using ih
    | other =>
      simpa [allPodsReady, qualifyingPods, podGatesRemoval, List.all_cons,
        List.filterMap_cons] using ih
    | pod p =>
      by_cases hq : qualifyingPod p = true
      · by_cases hr : isPodReady p = true <;>
          simp_all [allPodsReady, qualifyingPods, podGatesRemoval, List.all_cons,
            List.filterMap_cons, List.filter_cons]
      · simp_all [allPodsReady, qualifyingPods, podGatesRemoval, List.all_cons,
          List.filterMap_cons, List.filter_cons]

/-- The first-match taint scan returns the head of the list of all gating
positions. -/
lemma findGateIndexFrom_eq_head (l : List Taint) (i : Nat) :
    findGateIndexFrom l i = (spec_gatingPositionsFrom l i).head? := by
  induction l generalizing i with
  | nil => rfl
  | cons t ts ih =>
    by_cases h : t.key = TaintNodeDaemonSetNotReady <;>
      simp [findGateIndexFrom, spec_gatingPositionsFrom, h, ih]

/-- If no taint carries the gating key, the scan finds nothing. -/
lemma findGateIndexFrom_eq_none (l : List Taint) (i : Nat)
    (h : ∀ t ∈ l, ¬ t.key = TaintNodeDaemonSetNotReady) :
    findGateIndexFrom l i = none := by
  induction l generalizing i with
  | nil => rfl
  | cons t ts ih =>
    simp only [findGateIndexFrom, if_neg (h t (List.mem_cons_self t ts))]
    exact ih (i + 1) (fun t' ht' => h t' (List.mem_cons_of_mem t ht'))

/-- A reconciliation pass is the pointwise processing of the cached
objects. -/
lemma reconcilePass_eq_map (env : Env) (objs : List CacheObj) :
    reconcilePass env objs = objs.map (processNode env) := by
  induction objs with
  | nil => rfl
  | cons o os ih => simp [reconcilePass, ih]

/-! ### Claims -/

/-- C1 counterexample: node `n1` carries the gating taint and the set `P`
of qualifying daemonset pods is empty, yet the evaluator deems the taint
removable and the removal is issued — the claimed fail-safe ("when P is
empty the taint is not removable") does not hold in the code. -/
theorem C1_empty_pods_removal :
    qualifyingPods [] = [] ∧
    envEmptyPods.podsByNode node1.name = some [] ∧
    processNode envEmptyPods (CacheObj.node node1) = NodeOutcome.untainted (buildPatch 0) := by
  exact ⟨rfl, rfl, by decide⟩

/-- C1 (amended): for a node with a gating taint whose pod lookup returns
`ipods`, the evaluator deems the taint removable iff every pod in `P`
(the qualifying daemonset pods among `ipods`) has ready condition true —
vacuously removable when `P` is empty — and no removal is ever issued
while some pod in `P` is unready. -/
theorem C1_eligibility (env : Env) (node : Node) (idx : Nat) (ipods : List CacheObj)
    (hti : taintIndexOf node = some idx)
    (hpods : env.podsByNode node.name = some ipods) :
    (allPodsReady ipods = true ↔ ∀ p ∈ qualifyingPods ipods, isPodReady p = true) ∧
    ((∃ p ∈ qualifyingPods ipods, isPodReady p = false) →
      processNode env (CacheObj.node node) = NodeOutcome.notAllReady ∧
      issuesMutation (processNode env (CacheObj.node node)) = false) := by
  have hiff : allPodsReady ipods = true ↔ ∀ p ∈ qualifyingPods ipods, isPodReady p = true := by
    rw [allPodsReady_eq_qualifying, List.all_eq_true]
  refine ⟨hiff, ?_⟩
  rintro ⟨p, hp, hnr⟩
  have hfalse : allPodsReady ipods = false := by
    cases har : allPodsReady ipods
    · rfl
    · exact absurd (hiff.mp har p hp) (by simp [hnr])
  have hproc : processNode env (CacheObj.node node) = NodeOutcome.notAllReady := by
    simp [processNode, hti, hpods, hfalse]
  exact ⟨hproc, by simp [hproc, issuesMutation]⟩

/-- C1 witness: Scenario-C-like instance with one qualifying pod unready. -/
theorem C1_eligibility_witness :
    (allPodsReady [CacheObj.pod (dsPod "a" "n3" true), CacheObj.pod (dsPod "b" "n3" false)] =
        true ↔
      ∀ p ∈ qualifyingPods
          [CacheObj.pod (dsPod "a" "n3" true), CacheObj.pod (dsPod "b" "n3" false)],
        isPodReady p = true) ∧
    ((∃ p ∈ qualifyingPods
          [CacheObj.pod (dsPod "a" "n3" true), CacheObj.pod (dsPod "b" "n3" false)],
        isPodReady p = false) →
      processNode envScenarioC (CacheObj.node node3) = NodeOutcome.notAllReady ∧
      issuesMutation (processNode envScenarioC (CacheObj.node node3)) = false) :=
  C1_eligibility envScenarioC node3 0
    [CacheObj.pod (dsPod "a" "n3" true), CacheObj.pod (dsPod "b" "n3" false)]
    (by decide) rfl

/-- C2 counterexample (Scenario C): node `n3` has two gating taint
instances (spec positions `[0, 1]`), daemonset `ds-a`'s pod is ready and
daemonset `ds-b`'s pod is not, yet the evaluator produces no
remove-operation at all (the claim requires exactly one, targeting the
position of `ds-a`'s taint): readiness is aggregated over all tolerating
daemonset pods with values ignored, so the one unready pod blocks both
positions. -/
theorem C2_scenarioC_no_op :
    spec_gatingPositions node3.taints = [0, 1] ∧
    isPodReady (dsPod "a" "n3" true) = true ∧
    isPodReady (dsPod "b" "n3" false) = false ∧
    processNode envScenarioC (CacheObj.node node3) = NodeOutcome.notAllReady ∧
    emittedOps (processNode envScenarioC (CacheObj.node node3)) = [] := by
  decide

/-- C2 (amended): the evaluator locates only the first taint position
whose key equals the gating key (the head of the spec's list of all
gating positions); when some tolerating daemonset pod on the node is
unready, no remove-operation is produced for any position. -/
theorem C2_first_gate_position (env : Env) (node : Node) (ipods : List CacheObj)
    (hpods : env.podsByNode node.name = some ipods)
    (hnr : allPodsReady ipods = false) :
    taintIndexOf node = (spec_gatingPositions node.taints).head? ∧
    ∀ idx, taintIndexOf node = some idx →
      processNode env (CacheObj.node node) = NodeOutcome.notAllReady ∧
      emittedOps (processNode env (CacheObj.node node)) = [] := by
  refine ⟨findGateIndexFrom_eq_head node.taints 0, fun idx hti => ?_⟩
  have hproc : processNode env (CacheObj.node node) = NodeOutcome.notAllReady := by
    simp [processNode, hti, hpods, hnr]
  exact ⟨hproc, by simp [hproc, emittedOps]⟩

/-- C2 witness: the amended statement at the Scenario C instance. -/
theorem C2_first_gate_position_witness :
    (taintIndexOf node3 = (spec_gatingPositions node3.taints).head? ∧
      ∀ idx, taintIndexOf node3 = some idx →
        processNode envScenarioC (CacheObj.node node3) = NodeOutcome.notAllReady ∧
        emittedOps (processNode envScenarioC (CacheObj.node node3)) = []) ∧
    taintIndexOf node3 = some 0 :=
  ⟨C2_first_gate_position envScenarioC node3
      [CacheObj.pod (dsPod "a" "n3" true), CacheObj.pod (dsPod "b" "n3" false)]
      rfl (by decide),
   by decide⟩

/-- C3 counterexample: on node `n3` both gating positions `[0, 1]` qualify
for removal in the same pass (all tolerating daemonset pods are ready),
but the builder emits a single remove-operation targeting position 0 —
not one operation per removable position in descending index order. -/
theorem C3_single_op_only :
    spec_gatingPositions node3.taints = [0, 1] ∧
    allPodsReady [CacheObj.pod (dsPod "a" "n3" true), CacheObj.pod (dsPod "b" "n3" true)] =
      true ∧
    emittedOps (processNode envScenarioCReady (CacheObj.node node3)) = buildPatch 0 ∧
    (emittedOps (processNode envScenarioCReady (CacheObj.node node3))).length = 1 := by
  decide

/-- C3 (amended): the builder emits exactly one remove-operation,
addressing `/spec/taints/<idx>` for the single located position `idx`; a
set of two or more removable positions never arises.  Applying the one
removal to the taint list removes exactly position `idx` and leaves every
other taint in its original relative order (the list becomes the prefix
before `idx` followed by the suffix after it). -/
theorem C3_patch_builder (taints : List Taint) (idx : Nat) (h : idx < taints.length) :
    buildPatch idx = [⟨JSONPatchOperationOpRemove, "/spec/taints/" ++ toString idx⟩] ∧
    (buildPatch idx).length = 1 ∧
    taints.eraseIdx idx = taints.take idx ++ taints.drop (idx + 1) ∧
    (taints.eraseIdx idx).length = taints.length - 1 :=
  ⟨rfl, rfl, List.eraseIdx_eq_take_drop_succ taints idx, List.length_eraseIdx_of_lt h⟩

/-- C3 witness: the amended statement on node `n3`'s taint list at
position 0. -/
theorem C3_patch_builder_witness :
    buildPatch 0 = [⟨JSONPatchOperationOpRemove, "/spec/taints/" ++ toString 0⟩] ∧
    (buildPatch 0).length = 1 ∧
    node3.taints.eraseIdx 0 = node3.taints.take 0 ++ node3.taints.drop 1 ∧
    (node3.taints.eraseIdx 0).length = node3.taints.length - 1 :=
  C3_patch_builder node3.taints 0 (by decide)

/-- C4: receiving the cancellation event does not make the loop leave its
tick-driven cycle: the unlabelled `break` in the `ctx.Done()` case of
main.go line 247 terminates only the enclosing `select`, not the `for`
loop, so after cancellation the loop is still active and a subsequent
tick still runs a full reconciliation pass — the process never
terminates on the interrupt signal. -/
theorem C4_cancel_leaves_loop_active :
    (mainLoopRun envEmptyPods [CacheObj.node node1] [LoopEvent.cancel]).active = true ∧
    (mainLoopRun envEmptyPods [CacheObj.node node1]
        [LoopEvent.cancel, LoopEvent.tick]).passOutcomes =
      [[NodeOutcome.untainted (buildPatch 0)]] := by
  decide

/-- C5 counterexample: the original snapshot of node `n1` has the gating
taint at index 0; the fresh snapshot after a conflict (another controller
prepended a taint) has it at index 1, so the claim requires the second
attempt to submit the patch rebuilt from the fresh snapshot
(`/spec/taints/1`); but the retried closure captures the marshalled
bytes, so all three attempts resubmit the original `/spec/taints/0`
patch, which differs from the rebuilt one. -/
theorem C5_stale_resubmission :
    taintIndexOf node1 = some 0 ∧
    taintIndexOf ⟨"n1", [⟨"other.example.com/key", "", "NoSchedule"⟩, gateTaint ""]⟩ =
      some 1 ∧
    submittedPatches (marshalPatch (buildPatch 0)) alwaysConflict 3 0 =
      [marshalPatch (buildPatch 0), marshalPatch (buildPatch 0), marshalPatch (buildPatch 0)] ∧
    ¬ marshalPatch (buildPatch 0) = marshalPatch (buildPatch 1) := by
  decide

/-- C5 (amended): on conflict only the patch call itself is retried, and
every attempt resubmits the identical bytes captured from the original
snapshot — the evaluate-build sequence is not re-run; the number of
submissions equals the number of retry calls (at most the attempt budget
passed to `retryDo`). -/
theorem C5_retry_resubmits_same_bytes (bytes : String) (f : Nat → PatchResult) (n i : Nat) :
    submittedPatches bytes f n i = List.replicate (retryCalls f n i) bytes ∧
    retryCalls f n i ≤ n := by
  induction n generalizing i with
  | zero => exact ⟨rfl, Nat.le_refl 0⟩
  | succ n ih =>
    cases h : f i with
    | ok =>
      simp [submittedPatches, retryCalls, h, List.replicate]
    | conflict =>
      refine ⟨?_, ?_⟩
      · simp only [submittedPatches, retryCalls, h, (ih (i + 1)).1, Nat.one_add,
          List.replicate_succ]
      · simp only [retryCalls, h]
        have hle := (ih (i + 1)).2
        omega

/-- C6: with a store that rejects every mutation with a conflict, the
patch call is invoked exactly 3 times per node and then abandoned
(`retry.Do` reports the conflict, the node's processing ends in
`patchFailed`, never in `untainted`), and the pass still yields an
outcome for every cached object — no crash, the loop goes on. -/
theorem C6_retry_bound (env : Env)
    (hconf : ∀ nm bytes i, env.patchOutcome nm bytes i = PatchResult.conflict) :
    (∀ nm bytes, retryCalls (env.patchOutcome nm bytes) 3 0 = 3) ∧
    (∀ nm bytes, retryDo (env.patchOutcome nm bytes) 3 0 = PatchResult.conflict) ∧
    (∀ obj patch, ¬ processNode env obj = NodeOutcome.untainted patch) ∧
    (∀ objs, (reconcilePass env objs).length = objs.length) := by
  have hcalls : ∀ nm bytes, retryCalls (env.patchOutcome nm bytes) 3 0 = 3 := by
    intro nm bytes
    simp [retryCalls, hconf]
  have hdo : ∀ nm bytes, retryDo (env.patchOutcome nm bytes) 3 0 = PatchResult.conflict := by
    intro nm bytes
    simp [retryDo, hconf]
  refine ⟨hcalls, hdo, ?_, ?_⟩
  · intro obj patch h
    cases obj with
    | pod p => simp [processNode] at h
    | other => simp [processNode] at h
    | node node =>
      rcases hti : taintIndexOf node with _ | idx
      · simp [processNode, hti] at h
      · rcases hp : env.podsByNode node.name with _ | ipods
        · simp [processNode, hti, hp] at h
        · by_cases har : allPodsReady ipods = true
          · rcases hm : env.marshal (buildPatch idx) with _ | bytes
            · simp [processNode, hti, hp, har, hm] at h
            · simp only [processNode, hti, hp, har, if_true, hm] at h
              rw [hdo node.name bytes] at h
              simp at h
          · simp [processNode, hti, hp, har] at h
  · intro objs
    rw [reconcilePass_eq_map]
    exact List.length_map objs (processNode env)

/-- C6 witness: the bound at a concrete always-conflicting environment. -/
theorem C6_retry_bound_witness :
    retryCalls (envAlwaysConflict.patchOutcome "n1" "b") 3 0 = 3 ∧
    retryDo (envAlwaysConflict.patchOutcome "n1" "b") 3 0 = PatchResult.conflict ∧
    (reconcilePass envAlwaysConflict [CacheObj.node node1, CacheObj.other]).length = 2 :=
  ⟨(C6_retry_bound envAlwaysConflict (fun _ _ _ => rfl)).1 "n1" "b",
   (C6_retry_bound envAlwaysConflict (fun _ _ _ => rfl)).2.1 "n1" "b",
   (C6_retry_bound envAlwaysConflict (fun _ _ _ => rfl)).2.2.2
     [CacheObj.node node1, CacheObj.other]⟩

/-- C7: a node whose taint list has no instance of the gating key is
skipped before any patch is built or sent: processing ends at
`noGatingTaint` and no mutation call is issued. -/
theorem C7_no_gate_noop (env : Env) (node : Node)
    (h : ∀ t ∈ node.taints, ¬ t.key = TaintNodeDaemonSetNotReady) :
    processNode env (CacheObj.node node) = NodeOutcome.noGatingTaint ∧
    issuesMutation (processNode env (CacheObj.node node)) = false := by
  have hti : taintIndexOf node = none := findGateIndexFrom_eq_none node.taints 0 h
  have hproc : processNode env (CacheObj.node node) = NodeOutcome.noGatingTaint := by
    simp [processNode, hti]
  exact ⟨hproc, by simp [hproc, issuesMutation]⟩

/-- C7 witness: an already-untainted node with an unrelated taint. -/
theorem C7_no_gate_noop_witness :
    processNode envEmptyPods
        (CacheObj.node ⟨"n0", [⟨"other.example.com/key", "", "NoSchedule"⟩]⟩) =
      NodeOutcome.noGatingTaint ∧
    issuesMutation (processNode envEmptyPods
        (CacheObj.node ⟨"n0", [⟨"other.example.com/key", "", "NoSchedule"⟩]⟩)) = false :=
  C7_no_gate_noop envEmptyPods ⟨"n0", [⟨"other.example.com/key", "", "NoSchedule"⟩]⟩
    (by decide)

/-- C8: a reconciliation pass yields one outcome per cached object, and
the outcome at each position is the processing of that object alone —
whatever failure an earlier object produced, every remaining object is
still processed. -/
theorem C8_pass_processes_every_node (env : Env) (objs : List CacheObj) (i : Nat)
    (h : i < objs.length) :
    (reconcilePass env objs).length = objs.length ∧
    (reconcilePass env objs)[i]? = some (processNode env objs[i]) := by
  rw [reconcilePass_eq_map]
  refine ⟨List.length_map objs (processNode env), ?_⟩
  rw [List.getElem?_map]
  simp [List.getElem?_eq_getElem h]

/-- C8 witness: the second object is processed even though the first one
fails its type assertion. -/
theorem C8_pass_processes_every_node_witness :
    (reconcilePass envEmptyPods [CacheObj.other, CacheObj.node node1]).length =
      [CacheObj.other, CacheObj.node node1].length ∧
    (reconcilePass envEmptyPods [CacheObj.other, CacheObj.node node1])[1]? =
      some (processNode envEmptyPods [CacheObj.other, CacheObj.node node1][1]) :=
  C8_pass_processes_every_node envEmptyPods [CacheObj.other, CacheObj.node node1] 1
    (by decide)

/-- C9: the reconciliation loop is reached iff every watched type reports
synced; any failed type makes startup fatal (`none`) before any pass, and
when the check passes the loop runs over the observed events. -/
theorem C9_sync_gate (env : Env) (nodes : List CacheObj) (synced : List (String × Bool))
    (events : List LoopEvent) :
    ((runMain env nodes synced events).isSome = true ↔ ∀ p ∈ synced, p.2 = true) ∧
    (∀ t, checkCacheSync synced = some t → runMain env nodes synced events = none) ∧
    (checkCacheSync synced = none →
      runMain env nodes synced events = some (mainLoopRun env nodes events)) := by
  refine ⟨?_, ?_, ?_⟩
  · rcases hf : synced.find? (fun p => !p.2) with _ | q
    · simp only [runMain, checkCacheSync, hf, Option.isSome_some, true_iff]
      intro p hp
      have hfn := List.find?_eq_none.mp hf p hp
      simpa using hfn
    · have hq := List.find?_some hf
      have hmem := List.mem_of_find?_eq_some hf
      simp only [runMain, checkCacheSync, hf, Option.isSome_none]
      constructor
      · intro hfalse
        exact absurd hfalse (by simp)
      · intro hall
        have hq2 := hall q hmem
        rw [hq2] at hq
        simp at hq
  · intro t ht
    simp [runMain, ht]
  · intro ht
    simp [runMain, ht]

/-- C9 witness: two synced types reach the loop; reusing the theorem at a
fully-synced instance. -/
theorem C9_sync_gate_witness :
    ((runMain envEmptyPods [] [("node", true), ("pod", true)] [LoopEvent.tick]).isSome =
        true ↔
      ∀ p ∈ [("node", true), ("pod", true)], p.2 = true) ∧
    (∀ t, checkCacheSync [("node", true), ("pod", true)] = some t →
      runMain envEmptyPods [] [("node", true), ("pod", true)] [LoopEvent.tick] = none) ∧
    (checkCacheSync [("node", true), ("pod", true)] = none →
      runMain envEmptyPods [] [("node", true), ("pod", true)] [LoopEvent.tick] =
        some (mainLoopRun envEmptyPods [] [LoopEvent.tick])) :=
  C9_sync_gate envEmptyPods [] [("node", true), ("pod", true)] [LoopEvent.tick]

/-- C10: a pod counts as tolerating the gating taint iff some toleration
entry's key equals the gating key exactly (operator and value are
ignored), so a daemonset pod carrying only the blanket empty-key
`Exists` toleration is not a qualifying pod, and its unreadiness does not
prevent the taint removal. -/
theorem C10_toleration_key_only :
    (∀ p : Pod, toleratesGate p = true ↔
      ∃ t ∈ p.tolerations, t.key = TaintNodeDaemonSetNotReady) ∧
    toleratesGate (blanketPod "a" "n1" false) = false ∧
    qualifyingPod (blanketPod "a" "n1" false) = false ∧
    isPodReady (blanketPod "a" "n1" false) = false ∧
    processNode envBlanketUnready (CacheObj.node node1) = NodeOutcome.untainted (buildPatch 0) := by
  refine ⟨fun p => ?_, by decide, by decide, by decide, by decide⟩
  simp [toleratesGate, List.any_eq_true]

end NodeTaintManager
